import Mathlib

set_option maxRecDepth 100000

/-!
Shallow embedding of the AI Debate Arena debate engine
(src/debate_engine.py, class DebateEngine) and proofs about it.

Python strings are Lean String, Python ints are Nat or Int, a Python
function that may raise is modelled as returning Except with the error
message, and every outbound vendor call is abstracted as an oracle
function supplied as an argument. All definitions below are transcribed
from the source; the few that instead follow the specification document
are marked "Modelled from the spec" in their doc comment.
-/

/-- The eight vendor adapters of DebateEngine: one value per private
method the prefix dispatch in get_response can reach. -/
inductive Provider where
  | claude
  | openai
  | gemini
  | deepseek
  | mistral
  | cohere
  | groq
  | ai21
deriving DecidableEq

/-- Environment of the engine: given the provider, the prompt and the
max word budget, the vendor network call either returns the response
text or raises an exception carrying a message. -/
def Oracle : Type := Provider → String → Nat → Except String String

/-- Python str.startswith on our embedding of strings. -/
def startsWithStr (s p : String) : Bool :=
  p.data.isPrefixOf s.data

/-- The prefix dispatch of get_response (src/debate_engine.py lines
84 to 100): the chain of startswith tests in source order. -/
def route (ai_system : String) : Option Provider :=
  if startsWithStr ai_system "claude" then some Provider.claude
  else if startsWithStr ai_system "gpt" then some Provider.openai
  else if startsWithStr ai_system "gemini" then some Provider.gemini
  else if startsWithStr ai_system "deepseek" then some Provider.deepseek
  else if startsWithStr ai_system "mistral" then some Provider.mistral
  else if startsWithStr ai_system "cohere" || startsWithStr ai_system "command" then some Provider.cohere
  else if startsWithStr ai_system "groq" || startsWithStr ai_system "llama" then some Provider.groq
  else if startsWithStr ai_system "ai21" || startsWithStr ai_system "jamba" then some Provider.ai21
  else none

/-- The vendor name used in each private adapter method when it turns a
caught exception into its bracketed error string. -/
def adapterErrorLabel : Provider → String
  | Provider.claude => "Claude API call failed"
  | Provider.openai => "OpenAI API call failed"
  | Provider.gemini => "Gemini API call failed"
  | Provider.deepseek => "DeepSeek API call failed"
  | Provider.mistral => "Mistral API call failed"
  | Provider.cohere => "Cohere API call failed"
  | Provider.groq => "Groq API call failed"
  | Provider.ai21 => "AI21 API call failed"

/-- One private adapter method, for example get Claude response: the
vendor call is attempted and any exception is caught and rendered as the
tagged bracketed error string of that adapter. -/
def adapterResponse (call : Oracle) (p : Provider) (prompt : String) (max_words : Nat) : String :=
  match call p prompt max_words with
  | Except.ok text => text
  | Except.error e => "[ERROR: " ++ adapterErrorLabel p ++ " - " ++ e ++ "]"

/-- DebateEngine.get_response: dispatch on the model identifier prefix;
an identifier matching no prefix yields the unsupported error string.
The outer try of the source is unreachable because every private adapter
method already catches all exceptions, so it is not represented. -/
def get_response (call : Oracle) (ai_system prompt : String) (max_words : Nat) : String :=
  match route ai_system with
  | some p => adapterResponse call p prompt max_words
  | none => "[ERROR: AI system \x27" ++ ai_system ++ "\x27 not supported]"

/-- The mode conditioned instruction appended to every debate prompt
(run_debate lines 277 to 281): the exact string "Truth-Seeking" selects
the truth seeking wording, any other mode value the adversarial one. -/
def instructionSuffix (mode : String) : String :=
  if mode = "Truth-Seeking" then
    "Your goal is to find the truth together, not to win. Be willing to concede points and adjust your position based on strong arguments."
  else
    "Present the strongest possible case for your position."

/-- Opening prompt body for the PRO side before the instruction suffix
is appended (the round 1 f-string of run_debate). -/
def openingCorePro (topic : String) (word_limit : Nat) : String :=
  "You are participating in a structured debate about: " ++ topic ++ "\nYour position: PRO (in favor of the proposition)\nPresent your opening argument in approximately " ++ toString word_limit ++ " words. "

/-- Opening prompt body for the CON side before the instruction suffix. -/
def openingCoreCon (topic : String) (word_limit : Nat) : String :=
  "You are participating in a structured debate about: " ++ topic ++ "\nYour position: CON (against the proposition)\nPresent your opening argument in approximately " ++ toString word_limit ++ " words. "

/-- Round 1 PRO prompt: opening body followed by the mode instruction. -/
def openingPromptPro (topic : String) (word_limit : Nat) (suffix : String) : String :=
  openingCorePro topic word_limit ++ suffix

/-- Round 1 CON prompt: opening body followed by the mode instruction. -/
def openingPromptCon (topic : String) (word_limit : Nat) (suffix : String) : String :=
  openingCoreCon topic word_limit ++ suffix

/-- Text of a rebuttal prompt for PRO up to and including the line that
introduces the quoted opponent argument. -/
def rebuttalHeadPro (round_num : Nat) (topic : String) : String :=
  "You are in round " ++ toString round_num ++ " of a debate about: " ++ topic ++ "\nYour position: PRO\n\nYour opponent\x27s last argument:\n"

/-- Text of a rebuttal prompt for CON up to and including the line that
introduces the quoted opponent argument. -/
def rebuttalHeadCon (round_num : Nat) (topic : String) : String :=
  "You are in round " ++ toString round_num ++ " of a debate about: " ++ topic ++ "\nYour position: CON\n\nYour opponent\x27s last argument:\n"

/-- Text of a rebuttal prompt between the quoted opponent argument and
the mode instruction. -/
def rebuttalMid (word_limit : Nat) : String :=
  "\n\nRespond to their argument in approximately " ++ toString word_limit ++ " words. "

/-- Rebuttal prompt for PRO in a round after the first (the loop body
f-string of run_debate): the previous CON response is embedded verbatim
between head and mid, and the mode instruction closes the prompt. -/
def rebuttalPromptPro (round_num : Nat) (topic prev_con : String) (word_limit : Nat) (suffix : String) : String :=
  rebuttalHeadPro round_num topic ++ (prev_con ++ (rebuttalMid word_limit ++ suffix))

/-- Rebuttal prompt for CON in a round after the first: the previous PRO
response is embedded verbatim. -/
def rebuttalPromptCon (round_num : Nat) (topic prev_pro : String) (word_limit : Nat) (suffix : String) : String :=
  rebuttalHeadCon round_num topic ++ (prev_pro ++ (rebuttalMid word_limit ++ suffix))

/-- One entry of the debate log returned by run_debate: the dict with
keys round, pro_ai, pro_response, con_ai, con_response. -/
structure Turn where
  round : Nat
  pro_ai : String
  pro_response : String
  con_ai : String
  con_response : String
deriving DecidableEq

/-- A turn together with the two prompts that produced it, so theorems
can speak about the prompts the orchestrator issued. -/
structure RoundRec where
  turn : Turn
  pro_prompt : String
  con_prompt : String
deriving DecidableEq

/-- The for loop of run_debate over round numbers 2 to rounds: at each
step the two rebuttal prompts quote the previous responses, both sides
are queried through get_response, and the entry is appended. The
remaining argument counts the iterations left. -/
def debateLoop (call : Oracle) (topic ai_pro ai_con : String) (word_limit : Nat) (suffix : String) :
    String → String → Nat → Nat → List RoundRec
  | _, _, _, 0 => []
  | prev_pro, prev_con, round_num, Nat.succ k =>
      let pp := rebuttalPromptPro round_num topic prev_con word_limit suffix
      let cp := rebuttalPromptCon round_num topic prev_pro word_limit suffix
      let pr := get_response call ai_pro pp word_limit
      let cr := get_response call ai_con cp word_limit
      { turn := { round := round_num, pro_ai := ai_pro, pro_response := pr, con_ai := ai_con, con_response := cr },
        pro_prompt := pp, con_prompt := cp }
        :: debateLoop call topic ai_pro ai_con word_limit suffix pr cr (round_num + 1) k

/-- DebateEngine.run_debate instrumented with the prompts: round 1 uses
the opening prompts unconditionally, then the loop runs for round
numbers 2 to rounds, each rebuttal prompt quoting the opponent response
of the previous round. -/
def run_debate_trace (call : Oracle) (topic ai_pro ai_con : String) (rounds word_limit : Nat) (mode : String) : List RoundRec :=
  let suffix := instructionSuffix mode
  let pp := openingPromptPro topic word_limit suffix
  let cp := openingPromptCon topic word_limit suffix
  let pr := get_response call ai_pro pp word_limit
  let cr := get_response call ai_con cp word_limit
  { turn := { round := 1, pro_ai := ai_pro, pro_response := pr, con_ai := ai_con, con_response := cr },
    pro_prompt := pp, con_prompt := cp }
    :: debateLoop call topic ai_pro ai_con word_limit suffix pr cr 2 (rounds - 1)

/-- DebateEngine.run_debate: the debate log as the source returns it,
the list of turn dicts without the instrumented prompts. -/
def run_debate (call : Oracle) (topic ai_pro ai_con : String) (rounds word_limit : Nat) (mode : String) : List Turn :=
  (run_debate_trace call topic ai_pro ai_con rounds word_limit mode).map RoundRec.turn

/-- Python substring membership (the in operator) on the underlying
character list: true when pat occurs contiguously in s. -/
def hasSubstringAux (pat : List Char) : List Char → Bool
  | [] => pat.isEmpty
  | c :: rest => pat.isPrefixOf (c :: rest) || hasSubstringAux pat rest

/-- Python pat in s for strings. -/
def hasSubstring (s pat : String) : Bool :=
  hasSubstringAux pat.data s.data

/-- Index of the first occurrence of a character in a list. -/
def firstIdxOf (c : Char) : List Char → Option Nat
  | [] => none
  | x :: rest => if x = c then some 0 else (firstIdxOf c rest).map (fun i => i + 1)

/-- Index of the last occurrence of a character in a list. -/
def lastIdxOf (c : Char) : List Char → Option Nat
  | [] => none
  | x :: rest =>
      match lastIdxOf c rest with
      | some j => some (j + 1)
      | none => if x = c then some 0 else none

/-- The span the source isolates from the judge response with
re.search of the pattern open-brace dot-star close-brace in DOTALL mode
(judge_debate line 471): a greedy leftmost match, which runs from the
first opening brace to the last closing brace of the whole string,
provided some closing brace lies after the first opening brace. -/
def greedyBraceSpan (s : String) : Option String :=
  match firstIdxOf '\x7b' s.data, lastIdxOf '\x7d' s.data with
  | some i, some j =>
      if i < j then some (String.mk ((s.data.drop i).take (j - i + 1))) else none
  | _, _ => none

/-- Helper for firstBalancedRegion: scan with a depth counter, the
accumulated region so far, returning the region at the close that
balances the first open brace. -/
def balScan : Nat → List Char → List Char → Option (List Char)
  | _, _, [] => none
  | depth, acc, c :: rest =>
      if c = '\x7b' then balScan (depth + 1) (acc ++ [c]) rest
      else if c = '\x7d' then
        match depth with
        | 0 => none
        | 1 => some (acc ++ [c])
        | Nat.succ (Nat.succ d) => balScan (Nat.succ d) (acc ++ [c]) rest
      else balScan depth (acc ++ [c]) rest

/-- Drop characters up to and including the first opening brace. -/
def dropToBrace : List Char → Option (List Char)
  | [] => none
  | c :: rest => if c = '\x7b' then some rest else dropToBrace rest

/-- Modelled from the spec: the first balanced brace delimited region of
a response, the extraction the specification says the judge performs.
The source has no such scan; this definition exists to compare the
specified behavior with greedyBraceSpan, the behavior of the code. -/
def firstBalancedRegion (s : String) : Option String :=
  match dropToBrace s.data with
  | none => none
  | some rest => (balScan 1 ['\x7b'] rest).map String.mk

/-- JSON values as json.loads returns them, with numbers restricted to
integers (the only numerals the judge contract uses). -/
inductive JVal where
  | jnum (n : Int)
  | jstr (s : String)
  | jbool (b : Bool)
  | jnull
  | jarr (xs : List JVal)
  | jobj (fields : List (String × JVal))

/-- Insertion into a parsed JSON object as the Python dict builder does
it: a repeated key keeps its original position and takes the new value,
a fresh key is appended. -/
def insertField : List (String × JVal) → String → JVal → List (String × JVal)
  | [], k, v => [(k, v)]
  | (k0, v0) :: rest, k, v =>
      if k0 = k then (k0, v) :: rest else (k0, v0) :: insertField rest k v

/-- JSON whitespace skipping (space, tab, newline, carriage return). -/
def skipWs : List Char → List Char
  | [] => []
  | c :: rest =>
      if c = ' ' || c = '\n' || c = '\t' || c = '\r' then skipWs rest else c :: rest

/-- Body of a JSON string literal after its opening quote: the decoded
characters and the remainder after the closing quote. The common escape
sequences are decoded; unicode escapes are out of the model. -/
def parseStringBody : List Char → Option (List Char × List Char)
  | [] => none
  | c :: rest =>
      if c = '"' then some ([], rest)
      else if c = '\\' then
        match rest with
        | [] => none
        | e :: rest2 =>
            let dec : Option Char :=
              if e = '"' then some '"'
              else if e = '\\' then some '\\'
              else if e = '/' then some '/'
              else if e = 'n' then some '\n'
              else if e = 't' then some '\t'
              else if e = 'r' then some '\r'
              else if e = 'b' then some (Char.ofNat 8)
              else if e = 'f' then some (Char.ofNat 12)
              else none
            match dec with
            | none => none
            | some d =>
                match parseStringBody rest2 with
                | none => none
                | some (chars, rem) => some (d :: chars, rem)
      else
        match parseStringBody rest with
        | none => none
        | some (chars, rem) => some (c :: chars, rem)

/-- Longest leading digit run of a character list. -/
def takeDigits : List Char → List Char × List Char
  | [] => ([], [])
  | c :: rest =>
      if c.isDigit then
        let p := takeDigits rest
        (c :: p.1, p.2)
      else ([], c :: rest)

/-- Decimal value of a digit list. -/
def digitsToNat (ds : List Char) : Nat :=
  ds.foldl (fun acc c => acc * 10 + (c.toNat - 48)) 0

/-- A JSON integer token, with optional leading minus sign. -/
def parseNumberTok (s : List Char) : Option (Int × List Char) :=
  match s with
  | '-' :: rest =>
      let p := takeDigits rest
      if p.1.isEmpty then none else some (-(digitsToNat p.1 : Int), p.2)
  | _ =>
      let p := takeDigits s
      if p.1.isEmpty then none else some ((digitsToNat p.1 : Int), p.2)

mutual

/-- A JSON value at the head of the input, by recursive descent with a
fuel bound; models json.loads on the document grammar it accepts. -/
def parseVal : Nat → List Char → Option (JVal × List Char)
  | 0, _ => none
  | Nat.succ fuel, s =>
      match skipWs s with
      | [] => none
      | c :: rest =>
          if c = '\x7b' then
            match skipWs rest with
            | '\x7d' :: rem => some (JVal.jobj [], rem)
            | _ => parsePairs fuel rest []
          else if c = '[' then
            match skipWs rest with
            | ']' :: rem => some (JVal.jarr [], rem)
            | _ => parseItems fuel rest []
          else if c = '"' then
            match parseStringBody rest with
            | some (chars, rem) => some (JVal.jstr (String.mk chars), rem)
            | none => none
          else if c = 't' then
            match rest with
            | 'r' :: 'u' :: 'e' :: rem => some (JVal.jbool true, rem)
            | _ => none
          else if c = 'f' then
            match rest with
            | 'a' :: 'l' :: 's' :: 'e' :: rem => some (JVal.jbool false, rem)
            | _ => none
          else if c = 'n' then
            match rest with
            | 'u' :: 'l' :: 'l' :: rem => some (JVal.jnull, rem)
            | _ => none
          else
            match parseNumberTok (c :: rest) with
            | some (n, rem) => some (JVal.jnum n, rem)
            | none => none

/-- Members of a JSON object after its opening brace (nonempty case). -/
def parsePairs : Nat → List Char → List (String × JVal) → Option (JVal × List Char)
  | 0, _, _ => none
  | Nat.succ fuel, s, acc =>
      match skipWs s with
      | '"' :: rest =>
          match parseStringBody rest with
          | none => none
          | some (kchars, rem) =>
              match skipWs rem with
              | ':' :: rem2 =>
                  match parseVal fuel rem2 with
                  | none => none
                  | some (v, rem3) =>
                      let acc2 := insertField acc (String.mk kchars) v
                      match skipWs rem3 with
                      | ',' :: rem4 => parsePairs fuel rem4 acc2
                      | '\x7d' :: rem4 => some (JVal.jobj acc2, rem4)
                      | _ => none
              | _ => none
      | _ => none

/-- Items of a JSON array after its opening bracket (nonempty case). -/
def parseItems : Nat → List Char → List JVal → Option (JVal × List Char)
  | 0, _, _ => none
  | Nat.succ fuel, s, acc =>
      match parseVal fuel s with
      | none => none
      | some (v, rem) =>
          match skipWs rem with
          | ',' :: rem2 => parseItems fuel rem2 (acc ++ [v])
          | ']' :: rem2 => some (JVal.jarr (acc ++ [v]), rem2)
          | _ => none

end

/-- json.loads: one JSON document, with nothing but whitespace after
it. -/
def jparse (s : String) : Option JVal :=
  match parseVal (s.length + 1) s.data with
  | some (v, rem) => if (skipWs rem).isEmpty then some v else none
  | none => none

/-- Python dict subscript on a parsed JSON object: parsePairs keeps keys
unique, so the first hit is the binding. -/
def dictGet : List (String × JVal) → String → Option JVal
  | [], _ => none
  | (k0, v0) :: rest, k => if k0 = k then some v0 else dictGet rest k

/-- The values Python sum accepts: integers, and booleans counting as
one and zero. Anything else raises a TypeError inside sum. -/
def toNumber : JVal → Option Int
  | JVal.jnum n => some n
  | JVal.jbool b => some (if b then 1 else 0)
  | _ => none

/-- sum over the values of a score map: the total when every value is
numeric, none when sum would raise a TypeError. -/
def sumValues : List (String × JVal) → Option Int
  | [] => some 0
  | p :: rest =>
      match toNumber p.2, sumValues rest with
      | some n, some m => some (n + m)
      | _, _ => none

/-- Per side block of the verdict dict judge_debate builds: the six
category scores exactly as the judge payload carried them, plus the
recomputed total. -/
structure SideScores where
  argument_strength : JVal
  evidence_quality : JVal
  counterpoint_effectiveness : JVal
  good_faith : JVal
  factual_accuracy : JVal
  rhetorical_skill : JVal
  total : Int

/-- The result dict of a successful judge_debate call. -/
structure JudgeVerdict where
  judge_ai : String
  pro : SideScores
  con : SideScores
  commentary : JVal
  verdict : JVal

/-- Return value of judge_debate. The source returns either the result
dict or one of four error strings; each error constructor stands for
the exact string the source formats:
verdict v is the result dict;
judgeApiError r is the string ERROR Judge API call failed wrapping the
whole judge response r;
unparsable s is the JSONDecodeError string carrying the first 200
characters s of the response;
missingField k is the KeyError string naming the missing key k;
judgeFailed is the catch-all ERROR Judge evaluation failed string. -/
inductive JudgeResult where
  | verdict (v : JudgeVerdict)
  | judgeApiError (response : String)
  | unparsable (snippet : String)
  | missingField (key : String)
  | judgeFailed

/-- The ordered category keys of the judge contract, in the exact order
the result dict literal of the source reads them. -/
def scoreKeys : List String :=
  ["argument_strength", "evidence_quality", "counterpoint_effectiveness",
   "good_faith", "factual_accuracy", "rhetorical_skill"]

/-- First key of a key list missing from a map, in order; none when all
are present. This is the key the first raising subscript names. -/
def firstMissing (m : List (String × JVal)) : List String → Option String
  | [] => none
  | k :: ks =>
      match dictGet m k with
      | none => some k
      | some _ => firstMissing m ks

/-- The result dict literal of judge_debate (source lines 484 to 508):
the twelve category subscripts in order, then commentary, then verdict;
the first missing key raises KeyError, which the handler renders as the
missing field error naming that key. -/
def buildResult (judge_ai : String) (fs psf csf : List (String × JVal)) (pro_total con_total : Int) : JudgeResult :=
  match dictGet psf "argument_strength" with
  | none => JudgeResult.missingField "argument_strength"
  | some p1 =>
    match dictGet psf "evidence_quality" with
    | none => JudgeResult.missingField "evidence_quality"
    | some p2 =>
      match dictGet psf "counterpoint_effectiveness" with
      | none => JudgeResult.missingField "counterpoint_effectiveness"
      | some p3 =>
        match dictGet psf "good_faith" with
        | none => JudgeResult.missingField "good_faith"
        | some p4 =>
          match dictGet psf "factual_accuracy" with
          | none => JudgeResult.missingField "factual_accuracy"
          | some p5 =>
            match dictGet psf "rhetorical_skill" with
            | none => JudgeResult.missingField "rhetorical_skill"
            | some p6 =>
              match dictGet csf "argument_strength" with
              | none => JudgeResult.missingField "argument_strength"
              | some c1 =>
                match dictGet csf "evidence_quality" with
                | none => JudgeResult.missingField "evidence_quality"
                | some c2 =>
                  match dictGet csf "counterpoint_effectiveness" with
                  | none => JudgeResult.missingField "counterpoint_effectiveness"
                  | some c3 =>
                    match dictGet csf "good_faith" with
                    | none => JudgeResult.missingField "good_faith"
                    | some c4 =>
                      match dictGet csf "factual_accuracy" with
                      | none => JudgeResult.missingField "factual_accuracy"
                      | some c5 =>
                        match dictGet csf "rhetorical_skill" with
                        | none => JudgeResult.missingField "rhetorical_skill"
                        | some c6 =>
                          match dictGet fs "commentary" with
                          | none => JudgeResult.missingField "commentary"
                          | some cm =>
                            match dictGet fs "verdict" with
                            | none => JudgeResult.missingField "verdict"
                            | some vd =>
                              JudgeResult.verdict
                                { judge_ai := judge_ai,
                                  pro := { argument_strength := p1, evidence_quality := p2,
                                           counterpoint_effectiveness := p3, good_faith := p4,
                                           factual_accuracy := p5, rhetorical_skill := p6,
                                           total := pro_total },
                                  con := { argument_strength := c1, evidence_quality := c2,
                                           counterpoint_effectiveness := c3, good_faith := c4,
                                           factual_accuracy := c5, rhetorical_skill := c6,
                                           total := con_total },
                                  commentary := cm, verdict := vd }

/-- Processing of the parsed judge payload (source lines 479 to 508):
subscript pro_scores and sum its values, subscript con_scores and sum
its values, then build the result dict. A missing top level key raises
KeyError; a payload or score map of the wrong shape raises TypeError or
AttributeError, which the catch-all handler turns into judgeFailed. -/
def validateJudge (judge_ai : String) (judge_data : JVal) : JudgeResult :=
  match judge_data with
  | JVal.jobj fs =>
      match dictGet fs "pro_scores" with
      | none => JudgeResult.missingField "pro_scores"
      | some proV =>
          match proV with
          | JVal.jobj psf =>
              match sumValues psf with
              | none => JudgeResult.judgeFailed
              | some pro_total =>
                  match dictGet fs "con_scores" with
                  | none => JudgeResult.missingField "con_scores"
                  | some conV =>
                      match conV with
                      | JVal.jobj csf =>
                          match sumValues csf with
                          | none => JudgeResult.judgeFailed
                          | some con_total =>
                              buildResult judge_ai fs psf csf pro_total con_total
                      | _ => JudgeResult.judgeFailed
          | _ => JudgeResult.judgeFailed
  | _ => JudgeResult.judgeFailed

/-- The per round lines of the transcript block of the judge prompt. -/
def transcriptParts (ai_pro ai_con : String) (log : List Turn) : List String :=
  log.flatMap fun entry =>
    ["=== ROUND " ++ toString entry.round ++ " ===",
     "PRO (" ++ ai_pro ++ "):", entry.pro_response, "",
     "CON (" ++ ai_con ++ "):", entry.con_response, ""]

/-- The scoring instructions and JSON template of the judge prompt, the
literal tail of the f-string after the transcript. -/
def judgeTemplate : String :=
  "\n\nPlease score both debaters on the following categories using a 0-10 scale (where 10 is excellent, 5 is average, 0 is very poor):\n\n1. **Argument Strength** - Logic, coherence, and persuasiveness of their core arguments\n2. **Evidence Quality** - Use of facts, data, examples, and credible sources\n3. **Counterpoint Effectiveness** - How well they addressed and refuted opponent\x27s points\n4. **Good Faith/Concessions** - Willingness to acknowledge valid points and debate in good faith\n5. **Factual Accuracy** - Truthfulness and accuracy of claims made\n6. **Rhetorical Skill** - Communication quality, clarity, and persuasive techniques\n\nIMPORTANT: Provide your response EXACTLY in this JSON format:\n\n\x7b\n  \"pro_scores\": \x7b\n    \"argument_strength\": <score 0-10>,\n    \"evidence_quality\": <score 0-10>,\n    \"counterpoint_effectiveness\": <score 0-10>,\n    \"good_faith\": <score 0-10>,\n    \"factual_accuracy\": <score 0-10>,\n    \"rhetorical_skill\": <score 0-10>\n  \x7d,\n  \"con_scores\": \x7b\n    \"argument_strength\": <score 0-10>,\n    \"evidence_quality\": <score 0-10>,\n    \"counterpoint_effectiveness\": <score 0-10>,\n    \"good_faith\": <score 0-10>,\n    \"factual_accuracy\": <score 0-10>,\n    \"rhetorical_skill\": <score 0-10>\n  \x7d,\n  \"commentary\": \"2-3 paragraphs explaining your scoring decisions, highlighting strengths and weaknesses of each side\",\n  \"verdict\": \"Final verdict on the debate quality and which side presented a stronger case overall (if applicable)\"\n\x7d\n\nBe objective and fair in your evaluation. Consider the debate mode when scoring (e.g., good faith matters more in Truth-Seeking mode)."

/-- The judge prompt of judge_debate (source lines 404 to 460). -/
def buildJudgePrompt (topic mode ai_pro ai_con : String) (log : List Turn) : String :=
  let full_transcript := String.intercalate "\n" (transcriptParts ai_pro ai_con log)
  "You are serving as a judge for a debate. Your task is to objectively evaluate both debaters\x27 performance across multiple categories.\n\nDEBATE TOPIC: " ++ topic ++ "\nDEBATE MODE: " ++ mode ++ "\nPRO DEBATER: " ++ ai_pro ++ "\nCON DEBATER: " ++ ai_con ++ "\n\nFULL DEBATE TRANSCRIPT:\n" ++ full_transcript ++ judgeTemplate

/-- DebateEngine.judge_debate: build the judge prompt, query the judge
model through get_response, refuse a response carrying an adapter error
marker, isolate the greedy brace span and parse it as JSON, parse the
whole response only when no span exists, then validate and assemble the
verdict. Parse failures and missing keys become error returns through
the exception handlers, never raised exceptions. -/
def judge_debate (call : Oracle) (topic : String) (debate_log : List Turn) (mode judge_ai ai_pro ai_con : String) : JudgeResult :=
  let judge_prompt := buildJudgePrompt topic mode ai_pro ai_con debate_log
  let judge_response := get_response call judge_ai judge_prompt 800
  if hasSubstring judge_response "[ERROR:" then
    JudgeResult.judgeApiError judge_response
  else
    match greedyBraceSpan judge_response with
    | some json_str =>
        match jparse json_str with
        | some judge_data => validateJudge judge_ai judge_data
        | none => JudgeResult.unparsable (judge_response.take 200)
    | none =>
        match jparse judge_response with
        | some judge_data => validateJudge judge_ai judge_data
        | none => JudgeResult.unparsable (judge_response.take 200)

/-- Oracle of a judge model that answers every prompt with the fixed
response r. -/
def constOracle (r : String) : Oracle := fun _ _ _ => Except.ok r

/-- The JSON payload judge_debate will feed to validateJudge: the greedy
brace span when one exists, otherwise the whole response. -/
def judgeParsedPayload (r : String) : Option JVal :=
  match greedyBraceSpan r with
  | some s => jparse s
  | none => jparse r

/-- True when a judge result is the verdict dict. -/
def isVerdictResult : JudgeResult → Bool
  | JudgeResult.verdict _ => true
  | _ => false

/-- True when a judge result is the unparsable response error. -/
def isUnparsableResult : JudgeResult → Bool
  | JudgeResult.unparsable _ => true
  | _ => false

/-- True when the string parses as JSON and validates to a verdict for
the given judge model. -/
def parsesToVerdict (judge_ai s : String) : Bool :=
  match jparse s with
  | some j => isVerdictResult (validateJudge judge_ai j)
  | none => false

/-- A score map holding exactly the six categories, in the order of the
judge prompt template, with the given integer scores. -/
def sixScores (a1 a2 a3 a4 a5 a6 : Int) : List (String × JVal) :=
  [("argument_strength", JVal.jnum a1), ("evidence_quality", JVal.jnum a2),
   ("counterpoint_effectiveness", JVal.jnum a3), ("good_faith", JVal.jnum a4),
   ("factual_accuracy", JVal.jnum a5), ("rhetorical_skill", JVal.jnum a6)]

/-- The judge scoring fields generate_audio reads from a successful
judging dict: the two totals, the commentary and the verdict. -/
structure AudioJudging where
  pro_total : Int
  con_total : Int
  commentary : String
  verdict : String

/-- The introduction lines of the audio script (source lines 556 to
561). -/
def introParts (topic mode : String) (n : Nat) (ai_pro ai_con : String) : List String :=
  ["AI Debate Arena presents: " ++ topic,
   "This is a " ++ mode ++ " debate with " ++ toString n ++ " rounds.",
   "Arguing for the PRO side: " ++ ai_pro,
   "Arguing for the CON side: " ++ ai_con,
   "Let the debate begin!",
   ""]

/-- The audio script lines of one debate round (source lines 564 to
572). -/
def roundParts (entry : Turn) : List String :=
  ["Round " ++ toString entry.round, "",
   "PRO argument:", entry.pro_response, "",
   "CON argument:", entry.con_response, ""]

/-- The summary lines of the audio script; skipped when no summary dict
is present or its text is falsy (source lines 575 to 578). -/
def summaryParts : Option String → List String
  | none => []
  | some s => if s = "" then [] else ["Debate Summary", s, ""]

/-- The judge section of the audio script (source lines 581 to 596):
present when judging is a dict with scores, and carrying the two
totals, the whole commentary and the verdict text. -/
def judgingParts : Option AudioJudging → List String
  | none => []
  | some j =>
      ["Judge\x27s Verdict", "",
       "The judge has scored the debate across six categories.",
       "PRO total score: " ++ toString j.pro_total ++ " out of 60",
       "CON total score: " ++ toString j.con_total ++ " out of 60",
       "",
       "Judge\x27s Commentary:", j.commentary, "",
       "Final Verdict:", j.verdict]

/-- All lines of the audio script in order: introduction, every round in
transcript order, optional summary, optional judge section. -/
def scriptParts (topic : String) (debate_log : List Turn) (mode : String)
    (summary : Option String) (judging : Option AudioJudging) (ai_pro ai_con : String) : List String :=
  introParts topic mode debate_log.length ai_pro ai_con
    ++ debate_log.flatMap roundParts
    ++ summaryParts summary
    ++ judgingParts judging

/-- The full script string passed to the synthesis call. -/
def audioScript (topic : String) (debate_log : List Turn) (mode : String)
    (summary : Option String) (judging : Option AudioJudging) (ai_pro ai_con : String) : String :=
  String.intercalate "\n" (scriptParts topic debate_log mode summary judging ai_pro ai_con)

/-- The single voice the source configures for the whole audio (source
lines 604 to 607): the narrator voice. -/
def narratorVoice : String := "en-US-Neural2-J"

/-- DebateEngine.generate_audio: build the whole script and issue one
synthesis call with the narrator voice, returning its audio bytes. The
synthesis vendor is abstracted as the synth argument from text and
voice name to bytes. -/
def generate_audio (synth : String → String → List Nat) (topic : String) (debate_log : List Turn)
    (mode : String) (summary : Option String) (judging : Option AudioJudging) (ai_pro ai_con : String) : List Nat :=
  synth (audioScript topic debate_log mode summary judging ai_pro ai_con) narratorVoice

/-- An oracle on which every vendor call succeeds with a fixed text. -/
def oracleW : Oracle := fun _ _ _ => Except.ok "ok"

/-- An oracle on which every OpenAI call raises and every other vendor
call succeeds. -/
def oracleConDown : Oracle := fun p _ _ =>
  if p = Provider.openai then Except.error "boom" else Except.ok "fine"

/-- An oracle on which the OpenAI vendor raises exactly on prompts that
mention round 2, so a debater backed by it fails in round 2 only. -/
def oracleFailRound2 : Oracle := fun p prompt _ =>
  if p = Provider.openai ∧ hasSubstring prompt "round 2" = true then Except.error "timeout"
  else Except.ok "fine"

/-- A well formed judge payload: both score maps carry exactly the six
categories, plus commentary and verdict. -/
def payloadA : String :=
  "\x7b\"pro_scores\": \x7b\"argument_strength\": 8, \"evidence_quality\": 7, \"counterpoint_effectiveness\": 6, \"good_faith\": 5, \"factual_accuracy\": 9, \"rhetorical_skill\": 7\x7d, \"con_scores\": \x7b\"argument_strength\": 6, \"evidence_quality\": 8, \"counterpoint_effectiveness\": 7, \"good_faith\": 6, \"factual_accuracy\": 8, \"rhetorical_skill\": 5\x7d, \"commentary\": \"Both sides argued carefully.\", \"verdict\": \"PRO presented the stronger case.\"\x7d"

/-- The payload followed by trailing prose that contains a stray closing
brace, as a chatty judge model could produce. -/
def responseA : String :=
  payloadA ++ " Hope this helps! Let me know if you want more detail. \x7d"

/-- A judge payload whose pro score map carries one key beyond the six
categories. -/
def payloadC : String :=
  "\x7b\"pro_scores\": \x7b\"argument_strength\": 8, \"evidence_quality\": 7, \"counterpoint_effectiveness\": 6, \"good_faith\": 5, \"factual_accuracy\": 9, \"rhetorical_skill\": 7, \"creativity\": 3\x7d, \"con_scores\": \x7b\"argument_strength\": 6, \"evidence_quality\": 8, \"counterpoint_effectiveness\": 7, \"good_faith\": 6, \"factual_accuracy\": 8, \"rhetorical_skill\": 5\x7d, \"commentary\": \"Both sides argued carefully.\", \"verdict\": \"PRO presented the stronger case.\"\x7d"

/-- A judge payload whose pro score map misses the good faith category. -/
def payloadD : String :=
  "\x7b\"pro_scores\": \x7b\"argument_strength\": 8, \"evidence_quality\": 7, \"counterpoint_effectiveness\": 6, \"factual_accuracy\": 9, \"rhetorical_skill\": 7\x7d, \"con_scores\": \x7b\"argument_strength\": 6, \"evidence_quality\": 8, \"counterpoint_effectiveness\": 7, \"good_faith\": 6, \"factual_accuracy\": 8, \"rhetorical_skill\": 5\x7d, \"commentary\": \"Both sides argued carefully.\", \"verdict\": \"PRO presented the stronger case.\"\x7d"

/-- Whether the pro score map of the payload a response carries has the
given key. -/
def proMapHasKey (r k : String) : Bool :=
  match judgeParsedPayload r with
  | some (JVal.jobj fs) =>
      match dictGet fs "pro_scores" with
      | some (JVal.jobj psf) => (dictGet psf k).isSome
      | _ => false
  | _ => false

/-- A one round debate log for the audio theorems. -/
def logOne : List Turn :=
  [{ round := 1, pro_ai := "claude-a", pro_response := "P1 argument.",
     con_ai := "gpt-b", con_response := "C1 argument." }]

/-- A concrete judging record whose commentary is a marked sentence. -/
def judgingOne : AudioJudging :=
  { pro_total := 40, con_total := 35,
    commentary := "FULL-COMMENTARY-BODY-INCLUDED-IN-AUDIO",
    verdict := "PRO wins." }

/-- A concrete synthesis stub returning the lengths of its inputs. -/
def synthW : String → String → List Nat := fun text voice => [text.length, voice.length]

/-- The model identifier prefixes the dispatch of get_response knows,
in source order. -/
def knownModelPrefixes : List String :=
  ["claude", "gpt", "gemini", "deepseek", "mistral", "cohere", "command",
   "groq", "llama", "ai21", "jamba"]

/-- Each record of a trace segment carries the expected round number and
rebuttal prompts quoting the previous responses verbatim, starting from
the given previous pro and con texts and round number. -/
def quotesPrevFrom (topic : String) (word_limit : Nat) (suffix : String) :
    String → String → Nat → List RoundRec → Prop
  | _, _, _, [] => True
  | prev_pro, prev_con, round_num, r :: rest =>
      r.turn.round = round_num
      ∧ r.pro_prompt = rebuttalPromptPro round_num topic prev_con word_limit suffix
      ∧ r.con_prompt = rebuttalPromptCon round_num topic prev_pro word_limit suffix
      ∧ quotesPrevFrom topic word_limit suffix r.turn.pro_response r.turn.con_response (round_num + 1) rest

/-- The con score map shared by the concrete payloads. -/
def csfStd : List (String × JVal) := sixScores 6 8 7 6 8 5

/-- The parsed form of payloadA. -/
def fsA : List (String × JVal) :=
  [("pro_scores", JVal.jobj (sixScores 8 7 6 5 9 7)),
   ("con_scores", JVal.jobj csfStd),
   ("commentary", JVal.jstr "Both sides argued carefully."),
   ("verdict", JVal.jstr "PRO presented the stronger case.")]

/-- The pro score map of payloadD: five categories, good faith absent. -/
def psfD : List (String × JVal) :=
  [("argument_strength", JVal.jnum 8), ("evidence_quality", JVal.jnum 7),
   ("counterpoint_effectiveness", JVal.jnum 6), ("factual_accuracy", JVal.jnum 9),
   ("rhetorical_skill", JVal.jnum 7)]

/-- The parsed form of payloadD. -/
def fsD : List (String × JVal) :=
  [("pro_scores", JVal.jobj psfD),
   ("con_scores", JVal.jobj csfStd),
   ("commentary", JVal.jstr "Both sides argued carefully."),
   ("verdict", JVal.jstr "PRO presented the stronger case.")]

lemma debateLoop_length (call : Oracle) (topic ai_pro ai_con : String) (word_limit : Nat) (suffix : String) :
    ∀ (k round_num : Nat) (prev_pro prev_con : String),
      (debateLoop call topic ai_pro ai_con word_limit suffix prev_pro prev_con round_num k).length = k := by
  intro k
  induction k with
  | zero => intro rn pp pc; rfl
  | succ n ih =>
      intro rn pp pc
      simp only [debateLoop, List.length_cons]
      rw [ih]

lemma debateLoop_rounds (call : Oracle) (topic ai_pro ai_con : String) (word_limit : Nat) (suffix : String) :
    ∀ (k round_num : Nat) (prev_pro prev_con : String),
      (debateLoop call topic ai_pro ai_con word_limit suffix prev_pro prev_con round_num k).map
          (fun r => r.turn.round) = List.range' round_num k := by
  intro k
  induction k with
  | zero => intro rn pp pc; rfl
  | succ n ih =>
      intro rn pp pc
      simp only [debateLoop, List.map_cons]
      rw [ih]
      rfl

lemma debateLoop_pro_ai (call : Oracle) (topic ai_pro ai_con : String) (word_limit : Nat) (suffix : String) :
    ∀ (k round_num : Nat) (prev_pro prev_con : String),
      (debateLoop call topic ai_pro ai_con word_limit suffix prev_pro prev_con round_num k).map
          (fun r => r.turn.pro_ai) = List.replicate k ai_pro := by
  intro k
  induction k with
  | zero => intro rn pp pc; rfl
  | succ n ih =>
      intro rn pp pc
      simp only [debateLoop, List.map_cons]
      rw [ih]
      rfl

lemma debateLoop_con_ai (call : Oracle) (topic ai_pro ai_con : String) (word_limit : Nat) (suffix : String) :
    ∀ (k round_num : Nat) (prev_pro prev_con : String),
      (debateLoop call topic ai_pro ai_con word_limit suffix prev_pro prev_con round_num k).map
          (fun r => r.turn.con_ai) = List.replicate k ai_con := by
  intro k
  induction k with
  | zero => intro rn pp pc; rfl
  | succ n ih =>
      intro rn pp pc
      simp only [debateLoop, List.map_cons]
      rw [ih]
      rfl

lemma debateLoop_responses (call : Oracle) (topic ai_pro ai_con : String) (word_limit : Nat) (suffix : String) :
    ∀ (k round_num : Nat) (prev_pro prev_con : String) (r : RoundRec),
      r ∈ debateLoop call topic ai_pro ai_con word_limit suffix prev_pro prev_con round_num k →
      r.turn.pro_response = get_response call ai_pro r.pro_prompt word_limit
      ∧ r.turn.con_response = get_response call ai_con r.con_prompt word_limit := by
  intro k
  induction k with
  | zero => intro rn pp pc r hr; cases hr
  | succ n ih =>
      intro rn pp pc r hr
      simp only [debateLoop, List.mem_cons] at hr
      rcases hr with hr | hr
      · subst hr; exact ⟨rfl, rfl⟩
      · exact ih _ _ _ r hr

lemma debateLoop_quotes (call : Oracle) (topic ai_pro ai_con : String) (word_limit : Nat) (suffix : String) :
    ∀ (k round_num : Nat) (prev_pro prev_con : String),
      quotesPrevFrom topic word_limit suffix prev_pro prev_con round_num
        (debateLoop call topic ai_pro ai_con word_limit suffix prev_pro prev_con round_num k) := by
  intro k
  induction k with
  | zero => intro rn pp pc; trivial
  | succ n ih =>
      intro rn pp pc
      simp only [debateLoop, quotesPrevFrom]
      exact ⟨trivial, trivial, trivial, ih _ _ _⟩

/-- C1: for every oracle, topic, model pair, word limit, mode and every
round count of at least one, run_debate returns a log of exactly rounds
turns whose round fields are the contiguous integers one to rounds in
order, every turn carrying the pro and con model identifiers it was
called with. -/
theorem run_debate_round_structure (call : Oracle) (topic ai_pro ai_con : String)
    (rounds word_limit : Nat) (mode : String) (h : 1 ≤ rounds) :
    (run_debate call topic ai_pro ai_con rounds word_limit mode).length = rounds
    ∧ (run_debate call topic ai_pro ai_con rounds word_limit mode).map Turn.round = List.range' 1 rounds
    ∧ (run_debate call topic ai_pro ai_con rounds word_limit mode).map Turn.pro_ai = List.replicate rounds ai_pro
    ∧ (run_debate call topic ai_pro ai_con rounds word_limit mode).map Turn.con_ai = List.replicate rounds ai_con := by
  obtain ⟨m, rfl⟩ : ∃ m, rounds = m + 1 := ⟨rounds - 1, by omega⟩
  simp only [run_debate, run_debate_trace, Nat.add_sub_cancel, List.map_cons, List.map_map,
    List.length_cons, List.length_map]
  refine ⟨?_, ?_, ?_, ?_⟩
  · rw [debateLoop_length]
  · have := debateLoop_rounds call topic ai_pro ai_con word_limit (instructionSuffix mode) m 2
    simp only [Function.comp_def]
    rw [this]
    rfl
  · have := debateLoop_pro_ai call topic ai_pro ai_con word_limit (instructionSuffix mode) m 2
    simp only [Function.comp_def]
    rw [this]
    rfl
  · have := debateLoop_con_ai call topic ai_pro ai_con word_limit (instructionSuffix mode) m 2
    simp only [Function.comp_def]
    rw [this]
    rfl

/-- Witness for C1 at a concrete three round debate whose CON vendor is
down in every round. -/
theorem run_debate_round_structure_witness :
    1 ≤ 3
    ∧ ((run_debate oracleConDown "t" "claude-a" "gpt-b" 3 50 "Adversarial").length = 3
       ∧ (run_debate oracleConDown "t" "claude-a" "gpt-b" 3 50 "Adversarial").map Turn.round = List.range' 1 3
       ∧ (run_debate oracleConDown "t" "claude-a" "gpt-b" 3 50 "Adversarial").map Turn.pro_ai = List.replicate 3 "claude-a"
       ∧ (run_debate oracleConDown "t" "claude-a" "gpt-b" 3 50 "Adversarial").map Turn.con_ai = List.replicate 3 "gpt-b") :=
  ⟨by decide, run_debate_round_structure oracleConDown "t" "claude-a" "gpt-b" 3 50 "Adversarial" (by decide)⟩

/-- C2: in every debate run the two round 1 prompts are the opening
prompts, which are built from topic, word limit and mode alone and so
contain no opponent quoted text; and for every later round the PRO
prompt embeds verbatim the CON response recorded for the previous round
and the CON prompt the previous PRO response, as the decomposition of
the rebuttal prompts into head, quoted text and tail shows. The
property is proved for every oracle, so it covers the case where the
quoted previous text is an adapter failure string, which is quoted back
unchanged. -/
theorem run_debate_prompts_quote_previous (call : Oracle) (topic ai_pro ai_con : String)
    (rounds word_limit : Nat) (mode : String) :
    ((run_debate_trace call topic ai_pro ai_con rounds word_limit mode).map RoundRec.pro_prompt).head?
        = some (openingPromptPro topic word_limit (instructionSuffix mode))
    ∧ ((run_debate_trace call topic ai_pro ai_con rounds word_limit mode).map RoundRec.con_prompt).head?
        = some (openingPromptCon topic word_limit (instructionSuffix mode))
    ∧ (∀ (rn : Nat) (prev : String), rebuttalPromptPro rn topic prev word_limit (instructionSuffix mode)
        = rebuttalHeadPro rn topic ++ (prev ++ (rebuttalMid word_limit ++ instructionSuffix mode)))
    ∧ (∀ (rn : Nat) (prev : String), rebuttalPromptCon rn topic prev word_limit (instructionSuffix mode)
        = rebuttalHeadCon rn topic ++ (prev ++ (rebuttalMid word_limit ++ instructionSuffix mode)))
    ∧ quotesPrevFrom topic word_limit (instructionSuffix mode)
        (get_response call ai_pro (openingPromptPro topic word_limit (instructionSuffix mode)) word_limit)
        (get_response call ai_con (openingPromptCon topic word_limit (instructionSuffix mode)) word_limit)
        2 (run_debate_trace call topic ai_pro ai_con rounds word_limit mode).tail := by
  refine ⟨rfl, rfl, fun rn prev => rfl, fun rn prev => rfl, ?_⟩
  simp only [run_debate_trace, List.tail_cons]
  exact debateLoop_quotes call topic ai_pro ai_con word_limit (instructionSuffix mode) _ _ _ _

/-- C3: the round loop is total in the oracle: whatever the vendor
calls do, the trace still has exactly rounds entries, each recorded
response is exactly what get_response returned for the issued prompt,
and get_response renders every vendor exception as the tagged adapter
error string instead of propagating it. -/
theorem adapter_failure_is_nonfatal (call : Oracle) (topic ai_pro ai_con : String)
    (rounds word_limit : Nat) (mode : String) (h : 1 ≤ rounds) :
    (run_debate_trace call topic ai_pro ai_con rounds word_limit mode).length = rounds
    ∧ (∀ r ∈ run_debate_trace call topic ai_pro ai_con rounds word_limit mode,
        r.turn.pro_response = get_response call ai_pro r.pro_prompt word_limit
        ∧ r.turn.con_response = get_response call ai_con r.con_prompt word_limit)
    ∧ (∀ (ai prompt : String) (mw : Nat) (e : String) (p : Provider),
        route ai = some p → call p prompt mw = Except.error e →
        get_response call ai prompt mw = "[ERROR: " ++ adapterErrorLabel p ++ " - " ++ e ++ "]") := by
  obtain ⟨m, rfl⟩ : ∃ m, rounds = m + 1 := ⟨rounds - 1, by omega⟩
  refine ⟨?_, ?_, ?_⟩
  · simp only [run_debate_trace, Nat.add_sub_cancel, List.length_cons]
    rw [debateLoop_length]
  · intro r hr
    simp only [run_debate_trace, List.mem_cons] at hr
    rcases hr with hr | hr
    · subst hr; exact ⟨rfl, rfl⟩
    · exact debateLoop_responses call topic ai_pro ai_con word_limit _ _ _ _ _ r hr
  · intro ai prompt mw e p hroute hcall
    simp [get_response, hroute, adapterResponse, hcall]

/-- Witness for C3: a three round debate whose CON vendor raises
exactly on round 2 prompts, together with the rendering of that raise
as the tagged OpenAI error string. -/
theorem adapter_failure_is_nonfatal_witness :
    1 ≤ 3
    ∧ ((run_debate_trace oracleFailRound2 "t" "claude-a" "gpt-b" 3 50 "Adversarial").length = 3
       ∧ (∀ r ∈ run_debate_trace oracleFailRound2 "t" "claude-a" "gpt-b" 3 50 "Adversarial",
            r.turn.pro_response = get_response oracleFailRound2 "claude-a" r.pro_prompt 50
            ∧ r.turn.con_response = get_response oracleFailRound2 "gpt-b" r.con_prompt 50)
       ∧ (∀ (ai prompt : String) (mw : Nat) (e : String) (p : Provider),
            route ai = some p → oracleFailRound2 p prompt mw = Except.error e →
            get_response oracleFailRound2 ai prompt mw = "[ERROR: " ++ adapterErrorLabel p ++ " - " ++ e ++ "]")) :=
  ⟨by decide, adapter_failure_is_nonfatal oracleFailRound2 "t" "claude-a" "gpt-b" 3 50 "Adversarial" (by decide)⟩

/-- C8: the mode conditioned instruction closes every prompt of every
round for both sides, and it is the only way mode reaches the prompts:
each prompt is a core built without the mode argument followed by the
instruction suffix, the suffix being the truth seeking wording exactly
for the mode string Truth-Seeking and the adversarial wording for every
other mode value. -/
theorem mode_instruction_in_every_prompt (call : Oracle) (topic ai_pro ai_con : String)
    (rounds word_limit : Nat) (mode : String) :
    instructionSuffix "Truth-Seeking"
        = "Your goal is to find the truth together, not to win. Be willing to concede points and adjust your position based on strong arguments."
    ∧ (∀ m : String, m ≠ "Truth-Seeking" →
        instructionSuffix m = "Present the strongest possible case for your position.")
    ∧ ((run_debate_trace call topic ai_pro ai_con rounds word_limit mode).map RoundRec.pro_prompt).head?
        = some (openingCorePro topic word_limit ++ instructionSuffix mode)
    ∧ ((run_debate_trace call topic ai_pro ai_con rounds word_limit mode).map RoundRec.con_prompt).head?
        = some (openingCoreCon topic word_limit ++ instructionSuffix mode)
    ∧ quotesPrevFrom topic word_limit (instructionSuffix mode)
        (get_response call ai_pro (openingCorePro topic word_limit ++ instructionSuffix mode) word_limit)
        (get_response call ai_con (openingCoreCon topic word_limit ++ instructionSuffix mode) word_limit)
        2 (run_debate_trace call topic ai_pro ai_con rounds word_limit mode).tail := by
  refine ⟨rfl, ?_, rfl, rfl, ?_⟩
  · intro m hm
    unfold instructionSuffix
    rw [if_neg hm]
  · simp only [run_debate_trace, List.tail_cons]
    exact debateLoop_quotes call topic ai_pro ai_con word_limit (instructionSuffix mode) _ _ _ _

/-- C10: the mode argument is never validated: for every mode string
other than the exact value Truth-Seeking, run_debate behaves exactly as
with mode Adversarial, and the appended instruction is the adversarial
wording; only the exact string Truth-Seeking selects the truth seeking
wording. -/
theorem mode_not_validated (call : Oracle) (topic ai_pro ai_con : String)
    (rounds word_limit : Nat) (mode : String) (h : mode ≠ "Truth-Seeking") :
    run_debate call topic ai_pro ai_con rounds word_limit mode
        = run_debate call topic ai_pro ai_con rounds word_limit "Adversarial"
    ∧ run_debate_trace call topic ai_pro ai_con rounds word_limit mode
        = run_debate_trace call topic ai_pro ai_con rounds word_limit "Adversarial"
    ∧ instructionSuffix mode = "Present the strongest possible case for your position."
    ∧ instructionSuffix "Truth-Seeking"
        = "Your goal is to find the truth together, not to win. Be willing to concede points and adjust your position based on strong arguments." := by
  have hs : instructionSuffix mode = instructionSuffix "Adversarial" := by
    unfold instructionSuffix
    rw [if_neg h, if_neg (by decide : ¬("Adversarial" = "Truth-Seeking"))]
  have htrace : run_debate_trace call topic ai_pro ai_con rounds word_limit mode
      = run_debate_trace call topic ai_pro ai_con rounds word_limit "Adversarial" := by
    simp only [run_debate_trace, hs]
  refine ⟨by simp only [run_debate, htrace], htrace, ?_, rfl⟩
  unfold instructionSuffix
  rw [if_neg h]

/-- Witness for C10: the misspelled mode TruthSeeking behaves exactly
as Adversarial. -/
theorem mode_not_validated_witness :
    run_debate oracleW "t" "claude-a" "gpt-b" 2 50 "TruthSeeking"
        = run_debate oracleW "t" "claude-a" "gpt-b" 2 50 "Adversarial"
    ∧ run_debate_trace oracleW "t" "claude-a" "gpt-b" 2 50 "TruthSeeking"
        = run_debate_trace oracleW "t" "claude-a" "gpt-b" 2 50 "Adversarial"
    ∧ instructionSuffix "TruthSeeking" = "Present the strongest possible case for your position."
    ∧ instructionSuffix "Truth-Seeking"
        = "Your goal is to find the truth together, not to win. Be willing to concede points and adjust your position based on strong arguments." :=
  mode_not_validated oracleW "t" "claude-a" "gpt-b" 2 50 "TruthSeeking" (by decide)

lemma startsWith_incompat {s p q : String} (hp : startsWithStr s p = true)
    (hq : startsWithStr s q = true) (hpq : p.data.isPrefixOf q.data = false)
    (hqp : q.data.isPrefixOf p.data = false) : False := by
  unfold startsWithStr at hp hq
  have hp2 : p.data <+: s.data := List.isPrefixOf_iff_prefix.mp hp
  have hq2 : q.data <+: s.data := List.isPrefixOf_iff_prefix.mp hq
  rcases List.prefix_or_prefix_of_prefix hp2 hq2 with h | h
  · rw [← List.isPrefixOf_iff_prefix] at h
    rw [h] at hpq
    cases hpq
  · rw [← List.isPrefixOf_iff_prefix] at h
    rw [h] at hqp
    cases hqp

lemma startsWith_false_of {s : String} (p q : String) (hp : startsWithStr s p = true)
    (hpq : p.data.isPrefixOf q.data = false) (hqp : q.data.isPrefixOf p.data = false) :
    startsWithStr s q = false := by
  cases h : startsWithStr s q
  · rfl
  · exact absurd (startsWith_incompat hp h hpq hqp) (fun f => f)

/-- C7: for every model identifier matching none of the known prefixes,
get_response returns the unsupported model error string no matter what
the vendor oracle does, so no network call influences the result; for
every identifier matching a known prefix, route selects the one adapter
that prefix maps to, with cohere and command, groq and llama, and ai21
and jamba pairs mapping to shared adapters, and get_response dispatches
to the routed adapter. -/
theorem router_prefix_dispatch :
    (∀ (s prompt : String) (mw : Nat) (call : Oracle),
        (∀ p ∈ knownModelPrefixes, startsWithStr s p = false) →
        route s = none
        ∧ get_response call s prompt mw = "[ERROR: AI system \x27" ++ s ++ "\x27 not supported]")
    ∧ (∀ s : String, startsWithStr s "claude" = true → route s = some Provider.claude)
    ∧ (∀ s : String, startsWithStr s "gpt" = true → route s = some Provider.openai)
    ∧ (∀ s : String, startsWithStr s "gemini" = true → route s = some Provider.gemini)
    ∧ (∀ s : String, startsWithStr s "deepseek" = true → route s = some Provider.deepseek)
    ∧ (∀ s : String, startsWithStr s "mistral" = true → route s = some Provider.mistral)
    ∧ (∀ s : String, startsWithStr s "cohere" = true → route s = some Provider.cohere)
    ∧ (∀ s : String, startsWithStr s "command" = true → route s = some Provider.cohere)
    ∧ (∀ s : String, startsWithStr s "groq" = true → route s = some Provider.groq)
    ∧ (∀ s : String, startsWithStr s "llama" = true → route s = some Provider.groq)
    ∧ (∀ s : String, startsWithStr s "ai21" = true → route s = some Provider.ai21)
    ∧ (∀ s : String, startsWithStr s "jamba" = true → route s = some Provider.ai21)
    ∧ (∀ (s : String) (p : Provider) (call : Oracle) (prompt : String) (mw : Nat),
        route s = some p → get_response call s prompt mw = adapterResponse call p prompt mw) := by
  refine ⟨?_, ?_, ?_, ?_, ?_, ?_, ?_, ?_, ?_, ?_, ?_, ?_, ?_⟩
  · intro s prompt mw call hall
    have h1 := hall "claude" (by simp [knownModelPrefixes])
    have h2 := hall "gpt" (by simp [knownModelPrefixes])
    have h3 := hall "gemini" (by simp [knownModelPrefixes])
    have h4 := hall "deepseek" (by simp [knownModelPrefixes])
    have h5 := hall "mistral" (by simp [knownModelPrefixes])
    have h6 := hall "cohere" (by simp [knownModelPrefixes])
    have h7 := hall "command" (by simp [knownModelPrefixes])
    have h8 := hall "groq" (by simp [knownModelPrefixes])
    have h9 := hall "llama" (by simp [knownModelPrefixes])
    have h10 := hall "ai21" (by simp [knownModelPrefixes])
    have h11 := hall "jamba" (by simp [knownModelPrefixes])
    have hr : route s = none := by
      simp [route, h1, h2, h3, h4, h5, h6, h7, h8, h9, h10, h11]
    exact ⟨hr, by simp [get_response, hr]⟩
  · intro s h
    simp [route, h]
  · intro s h
    have n1 := startsWith_false_of "gpt" "claude" h (by decide) (by decide)
    simp [route, n1, h]
  · intro s h
    have n1 := startsWith_false_of "gemini" "claude" h (by decide) (by decide)
    have n2 := startsWith_false_of "gemini" "gpt" h (by decide) (by decide)
    simp [route, n1, n2, h]
  · intro s h
    have n1 := startsWith_false_of "deepseek" "claude" h (by decide) (by decide)
    have n2 := startsWith_false_of "deepseek" "gpt" h (by decide) (by decide)
    have n3 := startsWith_false_of "deepseek" "gemini" h (by decide) (by decide)
    simp [route, n1, n2, n3, h]
  · intro s h
    have n1 := startsWith_false_of "mistral" "claude" h (by decide) (by decide)
    have n2 := startsWith_false_of "mistral" "gpt" h (by decide) (by decide)
    have n3 := startsWith_false_of "mistral" "gemini" h (by decide) (by decide)
    have n4 := startsWith_false_of "mistral" "deepseek" h (by decide) (by decide)
    simp [route, n1, n2, n3, n4, h]
  · intro s h
    have n1 := startsWith_false_of "cohere" "claude" h (by decide) (by decide)
    have n2 := startsWith_false_of "cohere" "gpt" h (by decide) (by decide)
    have n3 := startsWith_false_of "cohere" "gemini" h (by decide) (by decide)
    have n4 := startsWith_false_of "cohere" "deepseek" h (by decide) (by decide)
    have n5 := startsWith_false_of "cohere" "mistral" h (by decide) (by decide)
    simp [route, n1, n2, n3, n4, n5, h]
  · intro s h
    have n1 := startsWith_false_of "command" "claude" h (by decide) (by decide)
    have n2 := startsWith_false_of "command" "gpt" h (by decide) (by decide)
    have n3 := startsWith_false_of "command" "gemini" h (by decide) (by decide)
    have n4 := startsWith_false_of "command" "deepseek" h (by decide) (by decide)
    have n5 := startsWith_false_of "command" "mistral" h (by decide) (by decide)
    simp [route, n1, n2, n3, n4, n5, h]
  · intro s h
    have n1 := startsWith_false_of "groq" "claude" h (by decide) (by decide)
    have n2 := startsWith_false_of "groq" "gpt" h (by decide) (by decide)
    have n3 := startsWith_false_of "groq" "gemini" h (by decide) (by decide)
    have n4 := startsWith_false_of "groq" "deepseek" h (by decide) (by decide)
    have n5 := startsWith_false_of "groq" "mistral" h (by decide) (by decide)
    have n6 := startsWith_false_of "groq" "cohere" h (by decide) (by decide)
    have n7 := startsWith_false_of "groq" "command" h (by decide) (by decide)
    simp [route, n1, n2, n3, n4, n5, n6, n7, h]
  · intro s h
    have n1 := startsWith_false_of "llama" "claude" h (by decide) (by decide)
    have n2 := startsWith_false_of "llama" "gpt" h (by decide) (by decide)
    have n3 := startsWith_false_of "llama" "gemini" h (by decide) (by decide)
    have n4 := startsWith_false_of "llama" "deepseek" h (by decide) (by decide)
    have n5 := startsWith_false_of "llama" "mistral" h (by decide) (by decide)
    have n6 := startsWith_false_of "llama" "cohere" h (by decide) (by decide)
    have n7 := startsWith_false_of "llama" "command" h (by decide) (by decide)
    simp [route, n1, n2, n3, n4, n5, n6, n7, h]
  · intro s h
    have n1 := startsWith_false_of "ai21" "claude" h (by decide) (by decide)
    have n2 := startsWith_false_of "ai21" "gpt" h (by decide) (by decide)
    have n3 := startsWith_false_of "ai21" "gemini" h (by decide) (by decide)
    have n4 := startsWith_false_of "ai21" "deepseek" h (by decide) (by decide)
    have n5 := startsWith_false_of "ai21" "mistral" h (by decide) (by decide)
    have n6 := startsWith_false_of "ai21" "cohere" h (by decide) (by decide)
    have n7 := startsWith_false_of "ai21" "command" h (by decide) (by decide)
    have n8 := startsWith_false_of "ai21" "groq" h (by decide) (by decide)
    have n9 := startsWith_false_of "ai21" "llama" h (by decide) (by decide)
    simp [route, n1, n2, n3, n4, n5, n6, n7, n8, n9, h]
  · intro s h
    have n1 := startsWith_false_of "jamba" "claude" h (by decide) (by decide)
    have n2 := startsWith_false_of "jamba" "gpt" h (by decide) (by decide)
    have n3 := startsWith_false_of "jamba" "gemini" h (by decide) (by decide)
    have n4 := startsWith_false_of "jamba" "deepseek" h (by decide) (by decide)
    have n5 := startsWith_false_of "jamba" "mistral" h (by decide) (by decide)
    have n6 := startsWith_false_of "jamba" "cohere" h (by decide) (by decide)
    have n7 := startsWith_false_of "jamba" "command" h (by decide) (by decide)
    have n8 := startsWith_false_of "jamba" "groq" h (by decide) (by decide)
    have n9 := startsWith_false_of "jamba" "llama" h (by decide) (by decide)
    simp [route, n1, n2, n3, n4, n5, n6, n7, n8, n9, h]
  · intro s p call prompt mw hr
    simp [get_response, hr]

lemma sumValues_perm {l1 l2 : List (String × JVal)} (h : l1.Perm l2) :
    sumValues l1 = sumValues l2 := by
  induction h with
  | nil => rfl
  | cons x _ ih =>
      simp only [sumValues]
      rw [ih]
  | swap x y l =>
      simp only [sumValues]
      rcases hx : toNumber x.2 with _ | nx <;> rcases hy : toNumber y.2 with _ | ny <;>
        rcases hl : sumValues l with _ | nl <;> simp [hx, hy, hl]
      omega
  | trans _ _ ih1 ih2 => exact ih1.trans ih2

lemma sumValues_sixScores (a1 a2 a3 a4 a5 a6 : Int) :
    sumValues (sixScores a1 a2 a3 a4 a5 a6) = some (a1 + a2 + a3 + a4 + a5 + a6) := by
  simp [sixScores, sumValues, toNumber]
  omega

lemma dictGet_isSome_of_mem : ∀ {l : List (String × JVal)} {k : String} {v : JVal},
    (k, v) ∈ l → (dictGet l k).isSome = true := by
  intro l
  induction l with
  | nil => intro k v h; cases h
  | cons p rest ih =>
      intro k v h
      rcases p with ⟨k0, v0⟩
      rcases List.mem_cons.mp h with h | h
      · injection h with h1 h2
        subst h1
        simp [dictGet]
      · by_cases hk : k0 = k
        · simp [dictGet, hk]
        · simpa [dictGet, hk] using ih h

lemma firstMissing_none (m : List (String × JVal)) : ∀ keys : List String,
    firstMissing m keys = none ↔ ∀ k ∈ keys, (dictGet m k).isSome = true := by
  intro keys
  induction keys with
  | nil => simp [firstMissing]
  | cons k ks ih =>
      cases h : dictGet m k with
      | none => simp [firstMissing, h]
      | some v => simp [firstMissing, h, ih]

lemma buildResult_verdict (judge_ai : String) (pt ct : Int)
    {fs psf csf : List (String × JVal)} {cm vd : JVal}
    (h1 : firstMissing psf scoreKeys = none) (h2 : firstMissing csf scoreKeys = none)
    (hcm : dictGet fs "commentary" = some cm) (hvd : dictGet fs "verdict" = some vd) :
    ∃ v : JudgeVerdict, buildResult judge_ai fs psf csf pt ct = JudgeResult.verdict v
      ∧ v.pro.total = pt ∧ v.con.total = ct ∧ v.commentary = cm ∧ v.verdict = vd
      ∧ v.judge_ai = judge_ai := by
  rw [firstMissing_none] at h1 h2
  obtain ⟨x1, e1⟩ := Option.isSome_iff_exists.mp (h1 "argument_strength" (by simp [scoreKeys]))
  obtain ⟨x2, e2⟩ := Option.isSome_iff_exists.mp (h1 "evidence_quality" (by simp [scoreKeys]))
  obtain ⟨x3, e3⟩ := Option.isSome_iff_exists.mp (h1 "counterpoint_effectiveness" (by simp [scoreKeys]))
  obtain ⟨x4, e4⟩ := Option.isSome_iff_exists.mp (h1 "good_faith" (by simp [scoreKeys]))
  obtain ⟨x5, e5⟩ := Option.isSome_iff_exists.mp (h1 "factual_accuracy" (by simp [scoreKeys]))
  obtain ⟨x6, e6⟩ := Option.isSome_iff_exists.mp (h1 "rhetorical_skill" (by simp [scoreKeys]))
  obtain ⟨y1, f1⟩ := Option.isSome_iff_exists.mp (h2 "argument_strength" (by simp [scoreKeys]))
  obtain ⟨y2, f2⟩ := Option.isSome_iff_exists.mp (h2 "evidence_quality" (by simp [scoreKeys]))
  obtain ⟨y3, f3⟩ := Option.isSome_iff_exists.mp (h2 "counterpoint_effectiveness" (by simp [scoreKeys]))
  obtain ⟨y4, f4⟩ := Option.isSome_iff_exists.mp (h2 "good_faith" (by simp [scoreKeys]))
  obtain ⟨y5, f5⟩ := Option.isSome_iff_exists.mp (h2 "factual_accuracy" (by simp [scoreKeys]))
  obtain ⟨y6, f6⟩ := Option.isSome_iff_exists.mp (h2 "rhetorical_skill" (by simp [scoreKeys]))
  simp only [buildResult, e1, e2, e3, e4, e5, e6, f1, f2, f3, f4, f5, f6, hcm, hvd]
  exact ⟨_, rfl, rfl, rfl, rfl, rfl, rfl⟩

lemma buildResult_missing_pro {judge_ai : String} {fs psf csf : List (String × JVal)}
    {pt ct : Int} {k : String} (h : firstMissing psf scoreKeys = some k) :
    buildResult judge_ai fs psf csf pt ct = JudgeResult.missingField k := by
  cases hA : dictGet psf "argument_strength" with
  | none =>
      have hk : "argument_strength" = k := by simpa [scoreKeys, firstMissing, hA] using h
      subst hk
      simp [buildResult, hA]
  | some v1 =>
  cases hB : dictGet psf "evidence_quality" with
  | none =>
      have hk : "evidence_quality" = k := by simpa [scoreKeys, firstMissing, hA, hB] using h
      subst hk
      simp [buildResult, hA, hB]
  | some v2 =>
  cases hC : dictGet psf "counterpoint_effectiveness" with
  | none =>
      have hk : "counterpoint_effectiveness" = k := by
        simpa [scoreKeys, firstMissing, hA, hB, hC] using h
      subst hk
      simp [buildResult, hA, hB, hC]
  | some v3 =>
  cases hD : dictGet psf "good_faith" with
  | none =>
      have hk : "good_faith" = k := by simpa [scoreKeys, firstMissing, hA, hB, hC, hD] using h
      subst hk
      simp [buildResult, hA, hB, hC, hD]
  | some v4 =>
  cases hE : dictGet psf "factual_accuracy" with
  | none =>
      have hk : "factual_accuracy" = k := by
        simpa [scoreKeys, firstMissing, hA, hB, hC, hD, hE] using h
      subst hk
      simp [buildResult, hA, hB, hC, hD, hE]
  | some v5 =>
  cases hF : dictGet psf "rhetorical_skill" with
  | none =>
      have hk : "rhetorical_skill" = k := by
        simpa [scoreKeys, firstMissing, hA, hB, hC, hD, hE, hF] using h
      subst hk
      simp [buildResult, hA, hB, hC, hD, hE, hF]
  | some v6 =>
      simp [scoreKeys, firstMissing, hA, hB, hC, hD, hE, hF] at h

lemma buildResult_missing_con {judge_ai : String} {fs psf csf : List (String × JVal)}
    {pt ct : Int} {k : String} (h1 : firstMissing psf scoreKeys = none)
    (h2 : firstMissing csf scoreKeys = some k) :
    buildResult judge_ai fs psf csf pt ct = JudgeResult.missingField k := by
  rw [firstMissing_none] at h1
  obtain ⟨x1, e1⟩ := Option.isSome_iff_exists.mp (h1 "argument_strength" (by simp [scoreKeys]))
  obtain ⟨x2, e2⟩ := Option.isSome_iff_exists.mp (h1 "evidence_quality" (by simp [scoreKeys]))
  obtain ⟨x3, e3⟩ := Option.isSome_iff_exists.mp (h1 "counterpoint_effectiveness" (by simp [scoreKeys]))
  obtain ⟨x4, e4⟩ := Option.isSome_iff_exists.mp (h1 "good_faith" (by simp [scoreKeys]))
  obtain ⟨x5, e5⟩ := Option.isSome_iff_exists.mp (h1 "factual_accuracy" (by simp [scoreKeys]))
  obtain ⟨x6, e6⟩ := Option.isSome_iff_exists.mp (h1 "rhetorical_skill" (by simp [scoreKeys]))
  cases hA : dictGet csf "argument_strength" with
  | none =>
      have hk : "argument_strength" = k := by simpa [scoreKeys, firstMissing, hA] using h2
      subst hk
      simp [buildResult, e1, e2, e3, e4, e5, e6, hA]
  | some w1 =>
  cases hB : dictGet csf "evidence_quality" with
  | none =>
      have hk : "evidence_quality" = k := by simpa [scoreKeys, firstMissing, hA, hB] using h2
      subst hk
      simp [buildResult, e1, e2, e3, e4, e5, e6, hA, hB]
  | some w2 =>
  cases hC : dictGet csf "counterpoint_effectiveness" with
  | none =>
      have hk : "counterpoint_effectiveness" = k := by
        simpa [scoreKeys, firstMissing, hA, hB, hC] using h2
      subst hk
      simp [buildResult, e1, e2, e3, e4, e5, e6, hA, hB, hC]
  | some w3 =>
  cases hD : dictGet csf "good_faith" with
  | none =>
      have hk : "good_faith" = k := by simpa [scoreKeys, firstMissing, hA, hB, hC, hD] using h2
      subst hk
      simp [buildResult, e1, e2, e3, e4, e5, e6, hA, hB, hC, hD]
  | some w4 =>
  cases hE : dictGet csf "factual_accuracy" with
  | none =>
      have hk : "factual_accuracy" = k := by
        simpa [scoreKeys, firstMissing, hA, hB, hC, hD, hE] using h2
      subst hk
      simp [buildResult, e1, e2, e3, e4, e5, e6, hA, hB, hC, hD, hE]
  | some w5 =>
  cases hF : dictGet csf "rhetorical_skill" with
  | none =>
      have hk : "rhetorical_skill" = k := by
        simpa [scoreKeys, firstMissing, hA, hB, hC, hD, hE, hF] using h2
      subst hk
      simp [buildResult, e1, e2, e3, e4, e5, e6, hA, hB, hC, hD, hE, hF]
  | some w6 =>
      simp [scoreKeys, firstMissing, hA, hB, hC, hD, hE, hF] at h2

lemma judge_debate_const_eq (r topic : String) (log : List Turn)
    (mode judge_ai ai_pro ai_con : String) (jp : Provider)
    (hroute : route judge_ai = some jp) (herr : hasSubstring r "[ERROR:" = false) :
    judge_debate (constOracle r) topic log mode judge_ai ai_pro ai_con
      = match judgeParsedPayload r with
        | some j => validateJudge judge_ai j
        | none => JudgeResult.unparsable (r.take 200) := by
  have hresp : get_response (constOracle r) judge_ai (buildJudgePrompt topic mode ai_pro ai_con log) 800 = r := by
    simp [get_response, hroute, adapterResponse, constOracle]
  unfold judge_debate judgeParsedPayload
  dsimp only
  rw [hresp, herr]
  simp only [Bool.false_eq_true, if_false]
  cases hg : greedyBraceSpan r <;> simp [hg]

/-- C4 counterexample: responseA is a judge response holding a balanced
brace delimited payload followed by trailing prose. The first balanced
region is exactly payloadA, and parsing that region yields a full
verdict, so the claimed behavior would return that verdict. The code
instead isolates the greedy span from the first opening brace to the
last closing brace, which here is the entire response because the prose
contains a stray closing brace, and judge_debate returns the unparsable
response error. -/
theorem judge_extraction_not_first_balanced_cex :
    firstBalancedRegion responseA = some payloadA
    ∧ parsesToVerdict "claude-judge" payloadA = true
    ∧ greedyBraceSpan responseA = some responseA
    ∧ isUnparsableResult
        (judge_debate (constOracle responseA) "t" [] "Adversarial" "claude-judge" "claude-a" "gpt-b") = true :=
  ⟨by decide, by decide, by decide, by decide⟩

/-- C4 amended: for every judge response free of the adapter error
marker, judge_debate isolates the greedy brace span, from the first
opening brace to the last closing brace, and parses exactly that span;
when that parse fails it returns the unparsable response error without
trying anything else; only when no span exists does it parse the whole
response, returning the unparsable response error when that fails too.
It never raises. -/
theorem judge_extraction_greedy_span (r topic : String) (log : List Turn)
    (mode judge_ai ai_pro ai_con : String) (jp : Provider)
    (hroute : route judge_ai = some jp) (herr : hasSubstring r "[ERROR:" = false) :
    (∀ (s : String) (j : JVal), greedyBraceSpan r = some s → jparse s = some j →
        judge_debate (constOracle r) topic log mode judge_ai ai_pro ai_con = validateJudge judge_ai j)
    ∧ (∀ s : String, greedyBraceSpan r = some s → jparse s = none →
        judge_debate (constOracle r) topic log mode judge_ai ai_pro ai_con
          = JudgeResult.unparsable (r.take 200))
    ∧ (∀ j : JVal, greedyBraceSpan r = none → jparse r = some j →
        judge_debate (constOracle r) topic log mode judge_ai ai_pro ai_con = validateJudge judge_ai j)
    ∧ (greedyBraceSpan r = none → jparse r = none →
        judge_debate (constOracle r) topic log mode judge_ai ai_pro ai_con
          = JudgeResult.unparsable (r.take 200)) := by
  have hC := judge_debate_const_eq r topic log mode judge_ai ai_pro ai_con jp hroute herr
  refine ⟨?_, ?_, ?_, ?_⟩
  · intro s j hs hj
    rw [hC]
    simp [judgeParsedPayload, hs, hj]
  · intro s hs hj
    rw [hC]
    simp [judgeParsedPayload, hs, hj]
  · intro j hs hj
    rw [hC]
    simp [judgeParsedPayload, hs, hj]
  · intro hs hj
    rw [hC]
    simp [judgeParsedPayload, hs, hj]

/-- Witness for the amended C4 at the concrete payloadA response. -/
theorem judge_extraction_greedy_span_witness :
    (∀ (s : String) (j : JVal), greedyBraceSpan payloadA = some s → jparse s = some j →
        judge_debate (constOracle payloadA) "t" [] "m" "claude-judge" "a" "b" = validateJudge "claude-judge" j)
    ∧ (∀ s : String, greedyBraceSpan payloadA = some s → jparse s = none →
        judge_debate (constOracle payloadA) "t" [] "m" "claude-judge" "a" "b"
          = JudgeResult.unparsable (payloadA.take 200))
    ∧ (∀ j : JVal, greedyBraceSpan payloadA = none → jparse payloadA = some j →
        judge_debate (constOracle payloadA) "t" [] "m" "claude-judge" "a" "b" = validateJudge "claude-judge" j)
    ∧ (greedyBraceSpan payloadA = none → jparse payloadA = none →
        judge_debate (constOracle payloadA) "t" [] "m" "claude-judge" "a" "b"
          = JudgeResult.unparsable (payloadA.take 200)) :=
  judge_extraction_greedy_span payloadA "t" [] "m" "claude-judge" "a" "b" Provider.claude rfl (by decide)

/-- C5: whenever the parsed judge payload carries score maps that are,
in any order, exactly the six categories with integer scores, plus the
commentary and verdict fields, judge_debate returns a verdict whose per
side total is the arithmetic sum of the six scores of that side,
recomputed from the map, not read from any reported total. -/
theorem judge_totals_recomputed (r topic : String) (log : List Turn)
    (mode judge_ai ai_pro ai_con : String) (jp : Provider)
    (fs psf csf : List (String × JVal)) (a1 a2 a3 a4 a5 a6 b1 b2 b3 b4 b5 b6 : Int)
    (cm vd : JVal)
    (hroute : route judge_ai = some jp) (herr : hasSubstring r "[ERROR:" = false)
    (hpay : judgeParsedPayload r = some (JVal.jobj fs))
    (hpro : dictGet fs "pro_scores" = some (JVal.jobj psf))
    (hcon : dictGet fs "con_scores" = some (JVal.jobj csf))
    (hperm1 : psf.Perm (sixScores a1 a2 a3 a4 a5 a6))
    (hperm2 : csf.Perm (sixScores b1 b2 b3 b4 b5 b6))
    (hcm : dictGet fs "commentary" = some cm)
    (hvd : dictGet fs "verdict" = some vd) :
    ∃ v : JudgeVerdict,
      judge_debate (constOracle r) topic log mode judge_ai ai_pro ai_con = JudgeResult.verdict v
      ∧ v.pro.total = a1 + a2 + a3 + a4 + a5 + a6
      ∧ v.con.total = b1 + b2 + b3 + b4 + b5 + b6 := by
  have hC := judge_debate_const_eq r topic log mode judge_ai ai_pro ai_con jp hroute herr
  have hsum1 : sumValues psf = some (a1 + a2 + a3 + a4 + a5 + a6) := by
    rw [sumValues_perm hperm1, sumValues_sixScores]
  have hsum2 : sumValues csf = some (b1 + b2 + b3 + b4 + b5 + b6) := by
    rw [sumValues_perm hperm2, sumValues_sixScores]
  have hm1 : firstMissing psf scoreKeys = none := by
    rw [firstMissing_none]
    intro k hk
    simp only [scoreKeys, List.mem_cons, List.not_mem_nil, or_false] at hk
    rcases hk with rfl | rfl | rfl | rfl | rfl | rfl
    · exact dictGet_isSome_of_mem (hperm1.mem_iff.mpr
        (show ("argument_strength", JVal.jnum a1) ∈ sixScores a1 a2 a3 a4 a5 a6 by simp [sixScores]))
    · exact dictGet_isSome_of_mem (hperm1.mem_iff.mpr
        (show ("evidence_quality", JVal.jnum a2) ∈ sixScores a1 a2 a3 a4 a5 a6 by simp [sixScores]))
    · exact dictGet_isSome_of_mem (hperm1.mem_iff.mpr
        (show ("counterpoint_effectiveness", JVal.jnum a3) ∈ sixScores a1 a2 a3 a4 a5 a6 by simp [sixScores]))
    · exact dictGet_isSome_of_mem (hperm1.mem_iff.mpr
        (show ("good_faith", JVal.jnum a4) ∈ sixScores a1 a2 a3 a4 a5 a6 by simp [sixScores]))
    · exact dictGet_isSome_of_mem (hperm1.mem_iff.mpr
        (show ("factual_accuracy", JVal.jnum a5) ∈ sixScores a1 a2 a3 a4 a5 a6 by simp [sixScores]))
    · exact dictGet_isSome_of_mem (hperm1.mem_iff.mpr
        (show ("rhetorical_skill", JVal.jnum a6) ∈ sixScores a1 a2 a3 a4 a5 a6 by simp [sixScores]))
  have hm2 : firstMissing csf scoreKeys = none := by
    rw [firstMissing_none]
    intro k hk
    simp only [scoreKeys, List.mem_cons, List.not_mem_nil, or_false] at hk
    rcases hk with rfl | rfl | rfl | rfl | rfl | rfl
    · exact dictGet_isSome_of_mem (hperm2.mem_iff.mpr
        (show ("argument_strength", JVal.jnum b1) ∈ sixScores b1 b2 b3 b4 b5 b6 by simp [sixScores]))
    · exact dictGet_isSome_of_mem (hperm2.mem_iff.mpr
        (show ("evidence_quality", JVal.jnum b2) ∈ sixScores b1 b2 b3 b4 b5 b6 by simp [sixScores]))
    · exact dictGet_isSome_of_mem (hperm2.mem_iff.mpr
        (show ("counterpoint_effectiveness", JVal.jnum b3) ∈ sixScores b1 b2 b3 b4 b5 b6 by simp [sixScores]))
    · exact dictGet_isSome_of_mem (hperm2.mem_iff.mpr
        (show ("good_faith", JVal.jnum b4) ∈ sixScores b1 b2 b3 b4 b5 b6 by simp [sixScores]))
    · exact dictGet_isSome_of_mem (hperm2.mem_iff.mpr
        (show ("factual_accuracy", JVal.jnum b5) ∈ sixScores b1 b2 b3 b4 b5 b6 by simp [sixScores]))
    · exact dictGet_isSome_of_mem (hperm2.mem_iff.mpr
        (show ("rhetorical_skill", JVal.jnum b6) ∈ sixScores b1 b2 b3 b4 b5 b6 by simp [sixScores]))
  obtain ⟨v, hv, hvp, hvc, _, _, _⟩ :=
    buildResult_verdict judge_ai (a1 + a2 + a3 + a4 + a5 + a6) (b1 + b2 + b3 + b4 + b5 + b6)
      hm1 hm2 hcm hvd
  refine ⟨v, ?_, hvp, hvc⟩
  rw [hC]
  simp only [hpay]
  simp only [validateJudge, hpro, hsum1, hcon, hsum2]
  exact hv

/-- Witness for C5 at the concrete payloadA response. -/
theorem judge_totals_recomputed_witness :
    ∃ v : JudgeVerdict,
      judge_debate (constOracle payloadA) "t" [] "m" "claude-judge" "a" "b" = JudgeResult.verdict v
      ∧ v.pro.total = 8 + 7 + 6 + 5 + 9 + 7
      ∧ v.con.total = 6 + 8 + 7 + 6 + 8 + 5 :=
  judge_totals_recomputed payloadA "t" [] "m" "claude-judge" "a" "b" Provider.claude
    fsA (sixScores 8 7 6 5 9 7) csfStd 8 7 6 5 9 7 6 8 7 6 8 5
    (JVal.jstr "Both sides argued carefully.") (JVal.jstr "PRO presented the stronger case.")
    rfl (by decide) rfl rfl rfl (List.Perm.refl _) (List.Perm.refl _) rfl rfl

/-- C6 counterexample: payloadC carries a pro score map with the six
categories plus an extra key creativity, yet judge_debate accepts it and
returns a verdict, so acceptance is not restricted to maps holding
exactly the six named categories. -/
theorem judge_accepts_extra_categories_cex :
    proMapHasKey payloadC "creativity" = true
    ∧ scoreKeys.contains "creativity" = false
    ∧ isVerdictResult
        (judge_debate (constOracle payloadC) "t" [] "Adversarial" "claude-judge" "claude-a" "gpt-b") = true :=
  ⟨by decide, by decide, by decide⟩

/-- C6 amended: for a parsed judge payload whose pro and con score maps
are objects with summable values and whose commentary and verdict keys
are present, judge_debate returns a verdict exactly when both score maps
contain at least the six named categories; extra keys are allowed and
their values are folded into the recomputed totals; and when a category
is missing the result is the missing field error naming the first
missing key in access order, the pro map checked before the con map. -/
theorem judge_required_categories (r topic : String) (log : List Turn)
    (mode judge_ai ai_pro ai_con : String) (jp : Provider)
    (fs psf csf : List (String × JVal)) (pt ct : Int) (cm vd : JVal)
    (hroute : route judge_ai = some jp) (herr : hasSubstring r "[ERROR:" = false)
    (hpay : judgeParsedPayload r = some (JVal.jobj fs))
    (hpro : dictGet fs "pro_scores" = some (JVal.jobj psf))
    (hsum1 : sumValues psf = some pt)
    (hcon : dictGet fs "con_scores" = some (JVal.jobj csf))
    (hsum2 : sumValues csf = some ct)
    (hcm : dictGet fs "commentary" = some cm)
    (hvd : dictGet fs "verdict" = some vd) :
    ((∃ v : JudgeVerdict,
        judge_debate (constOracle r) topic log mode judge_ai ai_pro ai_con = JudgeResult.verdict v)
      ↔ (firstMissing psf scoreKeys = none ∧ firstMissing csf scoreKeys = none))
    ∧ (∀ k : String, firstMissing psf scoreKeys = some k →
        judge_debate (constOracle r) topic log mode judge_ai ai_pro ai_con = JudgeResult.missingField k)
    ∧ (∀ k : String, firstMissing psf scoreKeys = none → firstMissing csf scoreKeys = some k →
        judge_debate (constOracle r) topic log mode judge_ai ai_pro ai_con = JudgeResult.missingField k)
    ∧ (∀ v : JudgeVerdict,
        judge_debate (constOracle r) topic log mode judge_ai ai_pro ai_con = JudgeResult.verdict v →
        v.pro.total = pt ∧ v.con.total = ct) := by
  have hC := judge_debate_const_eq r topic log mode judge_ai ai_pro ai_con jp hroute herr
  have hred : judge_debate (constOracle r) topic log mode judge_ai ai_pro ai_con
      = buildResult judge_ai fs psf csf pt ct := by
    rw [hC]
    simp only [hpay]
    simp only [validateJudge, hpro, hsum1, hcon, hsum2]
  refine ⟨?_, ?_, ?_, ?_⟩
  · constructor
    · rintro ⟨v, hv⟩
      rw [hred] at hv
      cases hfm1 : firstMissing psf scoreKeys with
      | some k =>
          rw [buildResult_missing_pro hfm1] at hv
          cases hv
      | none =>
          cases hfm2 : firstMissing csf scoreKeys with
          | some k =>
              rw [buildResult_missing_con hfm1 hfm2] at hv
              cases hv
          | none => exact ⟨rfl, rfl⟩
    · rintro ⟨hm1, hm2⟩
      obtain ⟨v, hv, -, -, -, -, -⟩ := buildResult_verdict judge_ai pt ct hm1 hm2 hcm hvd
      exact ⟨v, by rw [hred]; exact hv⟩
  · intro k hk
    rw [hred]
    exact buildResult_missing_pro hk
  · intro k h1 h2
    rw [hred]
    exact buildResult_missing_con h1 h2
  · intro v hv
    rw [hred] at hv
    cases hfm1 : firstMissing psf scoreKeys with
    | some k =>
        rw [buildResult_missing_pro hfm1] at hv
        cases hv
    | none =>
        cases hfm2 : firstMissing csf scoreKeys with
        | some k =>
            rw [buildResult_missing_con hfm1 hfm2] at hv
            cases hv
        | none =>
            obtain ⟨w, hw, hwp, hwc, -, -, -⟩ := buildResult_verdict judge_ai pt ct hfm1 hfm2 hcm hvd
            rw [hw] at hv
            injection hv with hwv
            subst hwv
            exact ⟨hwp, hwc⟩

/-- Witness for the amended C6 at payloadD, whose pro score map misses
the good faith category while everything else is present. -/
theorem judge_required_categories_witness :
    ((∃ v : JudgeVerdict,
        judge_debate (constOracle payloadD) "t" [] "m" "claude-judge" "a" "b" = JudgeResult.verdict v)
      ↔ (firstMissing psfD scoreKeys = none ∧ firstMissing csfStd scoreKeys = none))
    ∧ (∀ k : String, firstMissing psfD scoreKeys = some k →
        judge_debate (constOracle payloadD) "t" [] "m" "claude-judge" "a" "b" = JudgeResult.missingField k)
    ∧ (∀ k : String, firstMissing psfD scoreKeys = none → firstMissing csfStd scoreKeys = some k →
        judge_debate (constOracle payloadD) "t" [] "m" "claude-judge" "a" "b" = JudgeResult.missingField k)
    ∧ (∀ v : JudgeVerdict,
        judge_debate (constOracle payloadD) "t" [] "m" "claude-judge" "a" "b" = JudgeResult.verdict v →
        v.pro.total = 37 ∧ v.con.total = 40) :=
  judge_required_categories payloadD "t" [] "m" "claude-judge" "a" "b" Provider.claude
    fsD psfD csfStd 37 40
    (JVal.jstr "Both sides argued carefully.") (JVal.jstr "PRO presented the stronger case.")
    rfl (by decide) rfl rfl rfl rfl rfl rfl rfl

/-- C9 counterexample: with a judging record present, the audio script
contains the full judge commentary verbatim, not a condensed verdict of
scores and verdict text only. -/
theorem audio_full_commentary_cex :
    hasSubstring
        (audioScript "t" logOne "Adversarial" none (some judgingOne) "claude-a" "gpt-b")
        "FULL-COMMENTARY-BODY-INCLUDED-IN-AUDIO" = true
    ∧ generate_audio synthW "t" logOne "Adversarial" none (some judgingOne) "claude-a" "gpt-b"
        = synthW (audioScript "t" logOne "Adversarial" none (some judgingOne) "claude-a" "gpt-b") narratorVoice :=
  ⟨by decide, rfl⟩

/-- C9 amended: generate_audio issues exactly one synthesis call, bound
to the narrator voice, whose text is the whole script: the introduction,
every round in transcript order, the optional summary, and, when a
judging record is included, a verdict section carrying the two totals,
the full commentary and the verdict text. -/
theorem audio_single_call_script (synth : String → String → List Nat) (topic : String)
    (debate_log : List Turn) (mode : String) (summary : Option String)
    (j : AudioJudging) (ai_pro ai_con : String) :
    generate_audio synth topic debate_log mode summary (some j) ai_pro ai_con
        = synth (audioScript topic debate_log mode summary (some j) ai_pro ai_con) narratorVoice
    ∧ audioScript topic debate_log mode summary (some j) ai_pro ai_con
        = String.intercalate "\n"
            (introParts topic mode debate_log.length ai_pro ai_con
              ++ debate_log.flatMap roundParts
              ++ summaryParts summary
              ++ judgingParts (some j))
    ∧ j.commentary ∈ judgingParts (some j)
    ∧ j.verdict ∈ judgingParts (some j)
    ∧ ("PRO total score: " ++ toString j.pro_total ++ " out of 60") ∈ judgingParts (some j)
    ∧ ("CON total score: " ++ toString j.con_total ++ " out of 60") ∈ judgingParts (some j) := by
  refine ⟨rfl, rfl, ?_, ?_, ?_, ?_⟩ <;> simp [judgingParts]
